import Mathlib

/-!
# consul-template: file-permission reconciler and child-process controller

A shallow embedding of `renderer/file_perms.go`, `renderer/file_perms_posix.go`
and `renderer/file_perms_windows.go`, and theorems about what that code does.

Conventions of the embedding.

* Go code with side effects is a function in the monad `Go`: it threads a heap of
  `uint32` cells (the targets of `*uint32` pointers) and a trace of the side effects
  issued so far, and it ends either by returning a value or by a run-time fault
  (a Go panic such as a nil-pointer dereference).
* What the operating system answers (stat, user database, chmod, chown) is a
  parameter, the `World`.
* `error` is `Option Error`, `none` being Go's `nil`.
* `int` is the 64-bit `int`; `uint32` values are natural numbers.
-/

namespace ConsulTemplate

/-! ## Errors, events, and the execution monad -/

/-- Go `error` values that occur in the renderer. -/
inductive Error where
  /-- an error number reported by a system call (`syscall.Errno`) -/
  | errno (code : Nat)
  /-- an identity that the user database does not know (`user.Unknown…Error`) -/
  | unknownIdentity (name : String)
  /-- a syntax error of `strconv` (`ErrSyntax` in a `*strconv.NumError`) -/
  | badDigits (input : String)
  /-- a range error of `strconv` (`ErrRange` in a `*strconv.NumError`) -/
  | outOfRange (input : String)
  /-- the result of `errors.Wrap(inner, msg)` -/
  | wrap (inner : Error) (msg : String)
  deriving DecidableEq, Repr

/-- The error number `ENOENT`. -/
def ENOENT : Nat := 2

/-- Go `os.IsNotExist(err)`: true for the error number `ENOENT`, false for `nil`. -/
def os_IsNotExist : Option Error → Bool
  | some (Error.errno c) => c == ENOENT
  | _ => false

/-- Go `errors.Wrap(err, msg)`: `nil` stays `nil`. -/
def errors_Wrap (err : Option Error) (msg : String) : Option Error :=
  match err with
  | none => none
  | some e => some (Error.wrap e msg)

/-- Go `os.FileMode`, a `uint32`. -/
abbrev FileMode := Nat

/-- Go `FileMode.Perm`: the nine Unix permission bits. -/
def FileMode.Perm (m : FileMode) : Nat := m &&& 0o777

/-- Side effects a call leaves behind, in the order they are issued. -/
inductive Event where
  /-- the warning of `preserveFilePermissions` about an unreadable source -/
  | warnPreserve (srcPath : String) (err : Option Error)
  /-- the warning of `preserveFilePermissions` about a failed apply -/
  | warnSet (destPath : String) (err : Error)
  /-- a call `os.Chmod(path, mode)` -/
  | chmod (path : String) (mode : FileMode)
  /-- a call `os.Chown(path, uid, gid)` -/
  | chown (path : String) (uid gid : Int)
  /-- a call `windows.SetNamedSecurityInfo(path, objectType, info, owner, group, dacl, nil)`;
  SIDs are given in their string form, an ACL by a handle, `none` is the nil pointer -/
  | setNamedSecurityInfo (path : String) (objectType info : Nat)
      (owner group : Option String) (dacl : Option Nat)
  deriving DecidableEq, Repr

/-- Machine state threaded through a call: `uint32` cells and the effects so far. -/
structure St where
  heap : List Nat
  trace : List Event
  deriving DecidableEq, Repr

/-- The empty initial state. -/
def St.init : St := ⟨[], []⟩

/-- How a Go call ends: it returns a value, or the run time faults (panic). -/
inductive Res (α : Type) where
  | ret (a : α)
  | fault
  deriving DecidableEq, Repr

/-- Computations of the embedded Go code. -/
def Go (α : Type) : Type := St → Res α × St

/-- Return without effect. -/
def Go.pure {α : Type} (a : α) : Go α := fun s => (Res.ret a, s)

/-- Sequencing: a fault stops the computation. -/
def Go.bind {α β : Type} (m : Go α) (f : α → Go β) : Go β := fun s =>
  match m s with
  | (Res.ret a, s1) => f a s1
  | (Res.fault, s1) => (Res.fault, s1)

instance : Monad Go where
  pure := Go.pure
  bind := Go.bind

/-- The run-time fault. -/
def Go.crash {α : Type} : Go α := fun s => (Res.fault, s)

/-- Record a side effect. -/
def emit (e : Event) : Go Unit := fun s => (Res.ret (), { s with trace := s.trace ++ [e] })

/-- Allocate a fresh `uint32` cell holding `v` and return its address. -/
def alloc (v : Nat) : Go Nat := fun s =>
  (Res.ret s.heap.length, { s with heap := s.heap ++ [v] })

/-- Read through a `*uint32`: `none` is the nil pointer, whose dereference faults. -/
def load (p : Option Nat) : Go Nat := fun s =>
  match p with
  | none => (Res.fault, s)
  | some a =>
    match s.heap.get? a with
    | some v => (Res.ret v, s)
    | none => (Res.fault, s)

/-- Write through a `*uint32`: `none` is the nil pointer, whose dereference faults. -/
def store (p : Option Nat) (v : Nat) : Go Unit := fun s =>
  match p with
  | none => (Res.fault, s)
  | some a =>
    if a < s.heap.length then (Res.ret (), { s with heap := s.heap.set a v })
    else (Res.fault, s)

/-- The result of running a call from the empty state. -/
def Go.result {α : Type} (m : Go α) : Res α := (m St.init).1

/-- The side effects of running a call from the empty state. -/
def Go.effects {α : Type} (m : Go α) : List Event := (m St.init).2.trace

/-! ## `strconv` -/

/-- The digit loop of Go `strconv.ParseUint` for an explicit base: each byte must be
a digit below `base`; the value must stay below `2^64` and at most `maxVal`. -/
def parseUintLoop (s0 : String) (base maxVal : Nat) : List Char → Nat → Except Error Nat
  | [], n => Except.ok n
  | c :: cs, n =>
    let d : Option Nat :=
      if '0' ≤ c ∧ c ≤ '9' then some (c.toNat - '0'.toNat)
      else if 'a' ≤ c ∧ c ≤ 'z' then some (c.toNat - 'a'.toNat + 10)
      else if 'A' ≤ c ∧ c ≤ 'Z' then some (c.toNat - 'A'.toNat + 10)
      else none
    match d with
    | none => Except.error (Error.badDigits s0)
    | some d =>
      if d ≥ base then Except.error (Error.badDigits s0)
      else if n ≥ (2 ^ 64 - 1) / base + 1 then Except.error (Error.outOfRange s0)
      else
        let n1 := n * base + d
        if n1 ≥ 2 ^ 64 ∨ n1 > maxVal then Except.error (Error.outOfRange s0)
        else parseUintLoop s0 base maxVal cs n1

/-- Go `strconv.ParseUint(s, base, bitSize)` for an explicit base `2 ≤ base ≤ 36`. -/
def strconv_ParseUint (s : String) (base bitSize : Nat) : Except Error Nat :=
  match s.data with
  | [] => Except.error (Error.badDigits s)
  | cs => parseUintLoop s base (2 ^ bitSize - 1) cs 0

/-- Go `strconv.Atoi(s)`: an optional sign, then decimal digits, within `int`. -/
def strconv_Atoi (s : String) : Except Error Int :=
  match s.data with
  | [] => Except.error (Error.badDigits s)
  | c :: cs =>
    let neg := c == '-'
    let digits := if c == '-' ∨ c == '+' then cs else c :: cs
    match digits with
    | [] => Except.error (Error.badDigits s)
    | ds =>
      match parseUintLoop s 10 (2 ^ 64 - 1) ds 0 with
      | Except.error e => Except.error e
      | Except.ok un =>
        if neg then
          if un > 2 ^ 63 then Except.error (Error.outOfRange s) else Except.ok (-(un : Int))
        else
          if un ≥ 2 ^ 63 then Except.error (Error.outOfRange s) else Except.ok (un : Int)

/-! ## The operating system seen by the renderer -/

/-- Go `os/user.User` (the fields the renderer reads). -/
structure User where
  Uid : String
  Gid : String
  Username : String
  deriving DecidableEq, Repr

/-- Go `os/user.Group`. -/
structure Group where
  Gid : String
  Name : String
  deriving DecidableEq, Repr

/-- Go `unix.Stat_t` (the fields the renderer reads). -/
structure Stat_t where
  Mode : Nat
  Uid : Nat
  Gid : Nat
  deriving DecidableEq, Repr

/-- Answers of the operating system to the calls the POSIX backend makes. -/
structure World where
  /-- the error of `os.Stat(name)` -/
  osStat : String → Option Error
  /-- the result of `unix.Stat(path, &stat)` -/
  unixStat : String → Except Error Stat_t
  /-- the result of `user.LookupId` -/
  LookupId : String → Except Error User
  /-- the result of `user.Lookup` -/
  Lookup : String → Except Error User
  /-- the result of `user.LookupGroupId` -/
  LookupGroupId : String → Except Error Group
  /-- the result of `user.LookupGroup` -/
  LookupGroup : String → Except Error Group
  /-- the error of the system call behind `os.Chmod(path, mode)` -/
  chmodResult : String → FileMode → Option Error
  /-- the error of the system call behind `os.Chown(path, uid, gid)` -/
  chownResult : String → Int → Int → Option Error

/-- Go `os.Chmod(path, mode)`. -/
def os_Chmod (w : World) (path : String) (mode : FileMode) : Go (Option Error) := do
  emit (Event.chmod path mode)
  pure (w.chmodResult path mode)

/-- Go `os.Chown(path, uid, gid)`. -/
def os_Chown (w : World) (path : String) (uid gid : Int) : Go (Option Error) := do
  emit (Event.chown path uid gid)
  pure (w.chownResult path uid gid)

/-- Modelled from the spec: the declaration of `FilePermsInput`, which the renderer
sources use without declaring. User and group are free-form strings, empty when
unset; the mode is unset when zero. -/
structure FilePermsInput where
  User : String
  Group : String
  Mode : FileMode
  deriving DecidableEq, Repr

/-! ## POSIX backend: `file_perms_posix.go` with `file_perms.go` -/

namespace Posix

/-- The struct `PosixFilePerms`. A `*uint32` field is `none` for the nil pointer and
otherwise the address of a cell in the heap. -/
structure PosixFilePerms where
  Mode : FileMode
  Uid : Option Nat
  Gid : Option Nat
  deriving DecidableEq, Repr

/-- Values of the interface type `FilePerms`, by dynamic type: the nil interface, a
`PosixFilePerms` struct (a copy, as interfaces hold values), or a `*PosixFilePerms`
pointer, `none` being the nil pointer. The struct behind a pointer is never written
after its creation (all methods have value receivers), so it is given by content. -/
inductive FilePerms where
  | nil
  | val (p : PosixFilePerms)
  | ptr (p : Option PosixFilePerms)
  deriving DecidableEq, Repr

/-- The function `parseUint32(s, i)`: on a successful parse the value is stored
through `i`. -/
def parseUint32 (s : String) (i : Option Nat) : Go (Option Error) := do
  match strconv_ParseUint s 10 32 with
  | Except.ok uid =>
    store i uid
    pure none
  | Except.error err => pure (some err)

/-- Method `SetOwner` (value receiver). -/
def PosixFilePerms.SetOwner (p : PosixFilePerms) (user : User) : Go (Option Error) :=
  parseUint32 user.Uid p.Uid

/-- Method `SetGroup` (value receiver). -/
def PosixFilePerms.SetGroup (p : PosixFilePerms) (group : Group) : Go (Option Error) :=
  parseUint32 group.Gid p.Gid

/-- Method `GetPermissionBits` (value receiver). -/
def PosixFilePerms.GetPermissionBits (p : PosixFilePerms) : Go (FileMode × Option Error) :=
  pure (p.Mode, none)

/-- Method `SetPermissionBits` (value receiver): the assignment `p.Mode = mode`
changes the receiver, which is the callee's own copy of the struct; the method
returns only the error. -/
def PosixFilePerms.SetPermissionBits (p : PosixFilePerms) (mode : FileMode) :
    Go (Option Error) := do
  let p : PosixFilePerms := { p with Mode := mode }
  let _unused := p
  pure none

/-- Method `Apply` (value receiver). -/
def PosixFilePerms.Apply (w : World) (p : PosixFilePerms) (path : String) :
    Go (Option Error) := do
  if p.Mode ≠ 0 then
    let err ← os_Chmod w path p.Mode
    if err ≠ none then
      return err
  let mut uid : Int := -1
  if p.Uid ≠ none then
    uid := Int.ofNat (← load p.Uid)
  let mut gid : Int := -1
  if p.Gid ≠ none then
    gid := Int.ofNat (← load p.Gid)
  let err ← os_Chown w path uid gid
  return err

/-- Calling a value-receiver method through an interface value: the nil interface and
the nil pointer fault, a pointer is dereferenced and the struct copied. -/
def FilePerms.call {α : Type} (perms : FilePerms) (method : PosixFilePerms → Go α) : Go α :=
  match perms with
  | FilePerms.nil => Go.crash
  | FilePerms.val p => method p
  | FilePerms.ptr none => Go.crash
  | FilePerms.ptr (some p) => method p

/-- Interface method `SetOwner`. -/
def FilePerms.SetOwner (perms : FilePerms) (user : User) : Go (Option Error) :=
  perms.call (fun p => p.SetOwner user)

/-- Interface method `SetGroup`. -/
def FilePerms.SetGroup (perms : FilePerms) (group : Group) : Go (Option Error) :=
  perms.call (fun p => p.SetGroup group)

/-- Interface method `SetPermissionBits`. -/
def FilePerms.SetPermissionBits (perms : FilePerms) (mode : FileMode) : Go (Option Error) :=
  perms.call (fun p => p.SetPermissionBits mode)

/-- Interface method `Apply`. -/
def FilePerms.Apply (w : World) (perms : FilePerms) (path : String) : Go (Option Error) :=
  perms.call (fun p => p.Apply w path)

/-- The function `lookupUser` of the POSIX backend. -/
def lookupUser (w : World) (s : String) : Except Error User :=
  match strconv_Atoi s with
  | Except.ok _ => w.LookupId s
  | Except.error _ => w.Lookup s

/-- The function `lookupGroup` of the POSIX backend. -/
def lookupGroup (w : World) (s : String) : Except Error Group :=
  match strconv_Atoi s with
  | Except.ok _ => w.LookupGroupId s
  | Except.error _ => w.LookupGroup s

/-- Method `FilePermsInput.ApplyTo(perms)`. -/
def ApplyTo (w : World) (i : FilePermsInput) (perms : FilePerms) : Go (Option Error) := do
  if i.User ≠ "" then
    match lookupUser w i.User with
    | Except.error err => return some err
    | Except.ok user =>
      let err ← perms.SetOwner user
      if err ≠ none then
        return err
  if i.Group ≠ "" then
    match lookupGroup w i.Group with
    | Except.error err => return some err
    | Except.ok group =>
      let err ← perms.SetGroup group
      if err ≠ none then
        return err
  if i.Mode ≠ 0 then
    let err ← perms.SetPermissionBits i.Mode
    if err ≠ none then
      return err
  return none

/-- The function `NewFilePerms(input)`: the named result `p` starts as the zero
struct, `input.ApplyTo(p)` receives a copy of it inside the interface value, and `p`
itself is returned. -/
def NewFilePerms (w : World) (input : Option FilePermsInput) :
    Go (PosixFilePerms × Option Error) := do
  let p : PosixFilePerms := ⟨0, none, none⟩
  let mut err : Option Error := none
  if let some i := input then
    err ← ApplyTo w i (FilePerms.val p)
  return (p, err)

/-- The function `getFilePermissions(path)`: the pointers of the result point into the
freshly allocated `stat`. -/
def getFilePermissions (w : World) (path : String) :
    Go (Option PosixFilePerms × Option Error) := do
  match w.unixStat path with
  | Except.error err => return (none, some err)
  | Except.ok stat =>
    let uidAddr ← alloc stat.Uid
    let gidAddr ← alloc stat.Gid
    return (some ⟨stat.Mode, some uidAddr, some gidAddr⟩, none)

/-- The function `preserveFilePermissions(destPath, srcPath, override, fallback)`.
Assigning the `*PosixFilePerms` result of `getFilePermissions` to the interface
variable `perms` gives an interface value that is not nil, also for a nil pointer. -/
def preserveFilePermissions (w : World) (destPath srcPath : String)
    (override fallback : FilePermsInput) : Go (Option Error) := do
  let mut err : Option Error := w.osStat srcPath
  let mut perms : FilePerms := FilePerms.nil
  if err = none then
    let r ← getFilePermissions w srcPath
    perms := FilePerms.ptr r.1
    err := r.2
  if perms = FilePerms.nil then
    if !os_IsNotExist err then
      emit (Event.warnPreserve srcPath err)
    let r ← NewFilePerms w (some fallback)
    perms := FilePerms.val r.1
    err := r.2
    if err ≠ none then
      return errors_Wrap err "error using fallback file permissions"
  let err1 ← ApplyTo w override perms
  if err1 ≠ none then
    return errors_Wrap err1 "error using override file permissions"
  let err2 ← perms.Apply w destPath
  if let some e := err2 then
    emit (Event.warnSet destPath e)
    return errors_Wrap err2 "error applying file permissions"
  return none

/-- The function `Chown(name, user, group)`. -/
def Chown (w : World) (name user group : String) : Go (Option Error) := do
  let r ← NewFilePerms w (some { User := user, Group := group, Mode := 0 })
  if r.2 ≠ none then
    return none
  r.1.Apply w name

/-- The function `Chmod(name, mode)`. -/
def Chmod (w : World) (name : String) (mode : FileMode) : Go (Option Error) := do
  let r ← NewFilePerms w (some { User := "", Group := "", Mode := mode })
  if r.2 ≠ none then
    return none
  r.1.Apply w name

end Posix

/-! ## Windows backend: `file_perms_windows.go` -/

namespace Windows

/-- Windows access right `FILE_READ_DATA`. -/
def FILE_READ_DATA : Nat := 0x0001
/-- Windows access right `FILE_WRITE_DATA`. -/
def FILE_WRITE_DATA : Nat := 0x0002
/-- Windows access right `FILE_APPEND_DATA`. -/
def FILE_APPEND_DATA : Nat := 0x0004
/-- Windows access right `FILE_READ_EA`. -/
def FILE_READ_EA : Nat := 0x0008
/-- Windows access right `FILE_WRITE_EA`. -/
def FILE_WRITE_EA : Nat := 0x0010
/-- Windows access right `FILE_EXECUTE`. -/
def FILE_EXECUTE : Nat := 0x0020
/-- Windows access right `FILE_READ_ATTRIBUTES`. -/
def FILE_READ_ATTRIBUTES : Nat := 0x0080
/-- Windows access right `FILE_WRITE_ATTRIBUTES`. -/
def FILE_WRITE_ATTRIBUTES : Nat := 0x0100
/-- Windows standard right `READ_CONTROL`, the value of `STANDARD_RIGHTS_READ`,
`STANDARD_RIGHTS_WRITE` and `STANDARD_RIGHTS_EXECUTE`. -/
def READ_CONTROL : Nat := 0x00020000
/-- Windows standard right `SYNCHRONIZE`. -/
def SYNCHRONIZE : Nat := 0x00100000

/-- Windows `FILE_GENERIC_READ` (`0x120089`). -/
def FILE_GENERIC_READ : Nat :=
  READ_CONTROL ||| FILE_READ_DATA ||| FILE_READ_ATTRIBUTES ||| FILE_READ_EA ||| SYNCHRONIZE

/-- Windows `FILE_GENERIC_WRITE` (`0x120116`). -/
def FILE_GENERIC_WRITE : Nat :=
  READ_CONTROL ||| FILE_WRITE_DATA ||| FILE_WRITE_ATTRIBUTES ||| FILE_WRITE_EA |||
    FILE_APPEND_DATA ||| SYNCHRONIZE

/-- Windows `FILE_GENERIC_EXECUTE` (`0x1200A0`). -/
def FILE_GENERIC_EXECUTE : Nat :=
  READ_CONTROL ||| FILE_READ_ATTRIBUTES ||| FILE_EXECUTE ||| SYNCHRONIZE

/-- Constant `PermbitsOwner`. -/
def PermbitsOwner : Nat := 6
/-- Constant `PermbitsGroup`. -/
def PermbitsGroup : Nat := 3
/-- Constant `PermbitsWorld`. -/
def PermbitsWorld : Nat := 0

/-- The function `fileModeToAccessMask(mode, subject)`. -/
def fileModeToAccessMask (mode : FileMode) (subject : Nat) : Nat := Id.run do
  let mut mask : Nat := 0
  let mode := mode >>> subject
  if mode &&& 0b100 ≠ 0 then
    mask := mask ||| FILE_GENERIC_READ
  if mode &&& 0b010 ≠ 0 then
    mask := mask ||| FILE_GENERIC_WRITE
  if mode &&& 0b001 ≠ 0 then
    mask := mask ||| FILE_GENERIC_EXECUTE
  return mask

/-- The function `fileModeToAccessMasks(mode)`: owner, group and world masks. -/
def fileModeToAccessMasks (mode : FileMode) : Nat × Nat × Nat :=
  (fileModeToAccessMask mode PermbitsOwner, fileModeToAccessMask mode PermbitsGroup,
    fileModeToAccessMask mode PermbitsWorld)

/-- The function `accessMaskToFileMode(mask, subject)`. -/
def accessMaskToFileMode (mask : Nat) (subject : Nat) : FileMode := Id.run do
  let mut mode : Nat := 0
  if mask &&& FILE_GENERIC_READ ≠ 0 then
    mode := mode ||| 0b100
  if mask &&& FILE_WRITE_DATA ≠ 0 then
    mode := mode ||| 0b010
  if mask &&& FILE_EXECUTE ≠ 0 then
    mode := mode ||| 0b001
  return mode <<< subject

/-- The function `accessMasksToFileMode(ownerMask, groupMask, worldMask)`. -/
def accessMasksToFileMode (ownerMask groupMask worldMask : Nat) : FileMode :=
  accessMaskToFileMode ownerMask PermbitsOwner ||| accessMaskToFileMode groupMask PermbitsGroup
    ||| accessMaskToFileMode worldMask PermbitsWorld

/-- The mode read back from the masks written for `mode`. -/
def modeRoundTrip (mode : FileMode) : FileMode :=
  let masks := fileModeToAccessMasks mode
  accessMasksToFileMode masks.1 masks.2.1 masks.2.2

/-- Windows `OWNER_SECURITY_INFORMATION`. -/
def OWNER_SECURITY_INFORMATION : Nat := 0x00000001
/-- Windows `GROUP_SECURITY_INFORMATION`. -/
def GROUP_SECURITY_INFORMATION : Nat := 0x00000002
/-- Windows `DACL_SECURITY_INFORMATION`. -/
def DACL_SECURITY_INFORMATION : Nat := 0x00000004
/-- Windows `PROTECTED_DACL_SECURITY_INFORMATION`. -/
def PROTECTED_DACL_SECURITY_INFORMATION : Nat := 0x80000000
/-- Windows `SE_FILE_OBJECT`. -/
def SE_FILE_OBJECT : Nat := 1

/-- What the accessors of a `windows.SECURITY_DESCRIPTOR` answer: for the owner and the
group the SID (in string form, `none` for the nil pointer) and the defaulted flag, for
the DACL a handle and the defaulted flag, or the accessor's error. -/
structure SECURITY_DESCRIPTOR where
  Owner : Except Error (Option String × Bool)
  Group : Except Error (Option String × Bool)
  DACL : Except Error (Option Nat × Bool)

/-- The struct `WindowsFilePerms`. -/
structure WindowsFilePerms where
  desc : SECURITY_DESCRIPTOR

/-- Method `Apply`. The parameter `setResult` is the error that
`windows.SetNamedSecurityInfo` answers. -/
def WindowsFilePerms.Apply
    (setResult : String → Nat → Option String → Option String → Option Nat → Option Error)
    (p : WindowsFilePerms) (path : String) : Go (Option Error) := do
  match p.desc.Owner with
  | Except.error err => return errors_Wrap (some err) "error getting security descriptor owner"
  | Except.ok (owner, ownerDefaulted) =>
  match p.desc.Group with
  | Except.error err => return errors_Wrap (some err) "error getting security descriptor group"
  | Except.ok (group, groupDefaulted) =>
  match p.desc.DACL with
  | Except.error err => return errors_Wrap (some err) "error getting security descriptor DACL"
  | Except.ok (dacl0, daclDefaulted) =>
    let mut ownerSID := owner
    let mut groupSID := group
    let mut dacl := dacl0
    let mut info : Nat := 0
    if ownerDefaulted || ownerSID == none then
      ownerSID := none
    else
      info := info ||| OWNER_SECURITY_INFORMATION
    if groupDefaulted || ownerSID == none then
      groupSID := none
    else
      info := info ||| GROUP_SECURITY_INFORMATION
    if daclDefaulted || dacl == none then
      dacl := none
    else
      info := info ||| DACL_SECURITY_INFORMATION
    info := info ||| PROTECTED_DACL_SECURITY_INFORMATION
    if info == 0 then
      return none
    emit (Event.setNamedSecurityInfo path SE_FILE_OBJECT info ownerSID groupSID dacl)
    return setResult path info ownerSID groupSID dacl

end Windows

/-! ## Child process controller -/

namespace Child

/-- An OS signal number. -/
abbrev Signal := Nat

/-- Modelled from the spec: the Child Process Controller, whose implementation is not
among the sources (only its signal tests are). The launch configuration is left out;
`processHandle` is the id of the tracked OS process, `none` when no process is tracked
(never started, or exited). -/
structure Controller where
  reloadSignal : Option Signal
  killSignal : Option Signal
  splay : Nat
  setProcessGroup : Bool
  processHandle : Option Nat
  deriving DecidableEq, Repr

/-- Modelled from the spec: the signal delivery interface of the operating system and
the reaction of a process: `deliver target sig` is the error of sending `sig` to the
process id (or, negated, process-group id) `target`; `exitsOn pid sig` tells whether
process `pid` terminates on `sig` before the stop timeout. -/
structure SignalOS where
  deliver : Int → Signal → Option Error
  exitsOn : Nat → Signal → Bool

/-- Effects of the controller on the outside. -/
inductive Effect where
  /-- the splay wait, in time units -/
  | wait (duration : Nat)
  /-- delivery of a signal to a process or process group -/
  | signal (target : Int) (sig : Signal)
  deriving DecidableEq, Repr

/-- The target of a signal: the process group when `setProcessGroup`, else the process. -/
def Controller.target (c : Controller) (pid : Nat) : Int :=
  if c.setProcessGroup then -(pid : Int) else (pid : Int)

/-- Modelled from the spec: `Signal(sig)` delivers the signal immediately to the tracked
process (or process group); it is a no-op returning no error if no process is tracked;
it does not change the controller's state. -/
def Controller.Signal (os : SignalOS) (c : Controller) (sig : Signal) :
    Option Error × Controller × List Effect :=
  match c.processHandle with
  | none => (none, c, [])
  | some pid => (os.deliver (c.target pid) sig, c, [Effect.signal (c.target pid) sig])

/-- Modelled from the spec: `Reload()` delegates to `Signal(reloadSignal)` if a reload
signal is configured and is a no-op otherwise. -/
def Controller.Reload (os : SignalOS) (c : Controller) :
    Option Error × Controller × List Effect :=
  match c.reloadSignal with
  | some sig => c.Signal os sig
  | none => (none, c, [])

/-- Modelled from the spec: `Kill()` has the splay-then-signal mechanics of `Stop`: a
no-op if no process is tracked; otherwise, if a kill signal is configured, a wait of
`draw` reduced into `[0, splay]`, then delivery of the kill signal with the delivery
error ignored, after which the process is no longer tracked if it exits within the
timeout. It returns no error value. -/
def Controller.Kill (os : SignalOS) (c : Controller) (draw : Nat) :
    Controller × List Effect :=
  match c.processHandle with
  | none => (c, [])
  | some pid =>
    match c.killSignal with
    | none => (c, [])
    | some sig =>
      let _ignored := os.deliver (c.target pid) sig
      let after : Controller :=
        if os.exitsOn pid sig then { c with processHandle := none } else c
      (after, [Effect.wait (draw % (c.splay + 1)), Effect.signal (c.target pid) sig])

end Child

/-- An override whose first identity to be looked up is unknown: its user is set and
unknown, or its user is unset and its group is set and unknown. -/
def Posix.Unresolved (w : World) (o : FilePermsInput) : Prop :=
  (o.User ≠ "" ∧ ∃ e, Posix.lookupUser w o.User = Except.error e) ∨
    (o.User = "" ∧ o.Group ≠ "" ∧ ∃ e, Posix.lookupGroup w o.Group = Except.error e)

/-! ## Concrete inputs -/

/-- A machine on which `/etc/app.conf` exists as a regular file of mode `0644` owned by
uid 1000 and gid 100, the only user and group are `root` (id 0), and every `chmod` and
`chown` succeeds. -/
def exampleWorld : World where
  osStat := fun p => if p = "/etc/app.conf" then none else some (Error.errno ENOENT)
  unixStat := fun p =>
    if p = "/etc/app.conf" then Except.ok ⟨0o100644, 1000, 100⟩
    else Except.error (Error.errno ENOENT)
  LookupId := fun s =>
    if s = "0" then Except.ok ⟨"0", "0", "root"⟩ else Except.error (Error.unknownIdentity s)
  Lookup := fun s =>
    if s = "root" then Except.ok ⟨"0", "0", "root"⟩ else Except.error (Error.unknownIdentity s)
  LookupGroupId := fun s =>
    if s = "0" then Except.ok ⟨"0", "root"⟩ else Except.error (Error.unknownIdentity s)
  LookupGroup := fun s =>
    if s = "root" then Except.ok ⟨"0", "root"⟩ else Except.error (Error.unknownIdentity s)
  chmodResult := fun _ _ => none
  chownResult := fun _ _ _ => none

/-- A security descriptor without owner that holds a group (the SID of the local
administrators, not defaulted) and a DACL. -/
def groupOnlyDescriptor : Windows.SECURITY_DESCRIPTOR where
  Owner := Except.ok (none, false)
  Group := Except.ok (some "S-1-5-32-544", false)
  DACL := Except.ok (some 1, false)

/-- A security descriptor with an owner (local system, not defaulted) and a DACL that
holds no group. -/
def ownerOnlyDescriptor : Windows.SECURITY_DESCRIPTOR where
  Owner := Except.ok (some "S-1-5-18", false)
  Group := Except.ok (none, false)
  DACL := Except.ok (some 1, false)

/-- A controller that has never been started, with both signals configured. -/
def idleController : Child.Controller where
  reloadSignal := some 10
  killSignal := some 15
  splay := 5
  setProcessGroup := true
  processHandle := none

/-- A signal interface on which every delivery succeeds and every process exits. -/
def exampleSignalOS : Child.SignalOS where
  deliver := fun _ _ => none
  exitsOn := fun _ _ => true

/-! ## Running the monad -/

/-- Running a sequence: the first part, then the second, unless the first faults. -/
theorem run_bind {α β : Type} (m : Go α) (f : α → Go β) (s : St) :
    (m >>= f) s = match m s with
      | (Res.ret a, s1) => f a s1
      | (Res.fault, s1) => (Res.fault, s1) := rfl

/-- Running a return. -/
theorem run_pure {α : Type} (a : α) (s : St) :
    (Pure.pure a : Go α) s = (Res.ret a, s) := rfl

/-- The first of two cells appended to a heap is at the old length. -/
theorem heap_get_fst (heap : List Nat) (a b : Nat) :
    (heap ++ [a, b]).get? heap.length = some a := by
  induction heap with
  | nil => rfl
  | cons x xs ih => simpa using ih

/-- The second of two cells appended to a heap is one past the old length. -/
theorem heap_get_snd (heap : List Nat) (a b : Nat) :
    (heap ++ [a, b]).get? (heap.length + 1) = some b := by
  induction heap with
  | nil => rfl
  | cons x xs ih => simpa using ih

/-- Reading the first of two freshly allocated cells. -/
theorem load_fst (heap : List Nat) (a b : Nat) (trace : List Event) :
    load (some heap.length) ⟨heap ++ [a, b], trace⟩ = (Res.ret a, ⟨heap ++ [a, b], trace⟩) := by
  unfold load
  simp only [heap_get_fst]

/-- Reading the second of two freshly allocated cells. -/
theorem load_snd (heap : List Nat) (a b : Nat) (trace : List Event) :
    load (some (heap.length + 1)) ⟨heap ++ [a, b], trace⟩ =
      (Res.ret b, ⟨heap ++ [a, b], trace⟩) := by
  unfold load
  simp only [heap_get_snd]

/-! ## POSIX backend: snapshot construction -/

namespace Posix

/-- Parsing into the nil pointer either faults (the string is a number) or reports the
parse error. -/
theorem parseUint32_nil (str : String) (s : St) :
    parseUint32 str none s = (Res.fault, s) ∨
      ∃ e, parseUint32 str none s = (Res.ret (some e), s) := by
  unfold parseUint32
  cases h : strconv_ParseUint str 10 32 with
  | error e => right; exact ⟨e, rfl⟩
  | ok n => left; rfl

/-- Setting the permission bits through an interface value holding a struct changes
nothing and reports no error. -/
theorem SetPermissionBits_val (p : PosixFilePerms) (mode : FileMode) (s : St) :
    (FilePerms.val p).SetPermissionBits mode s = (Res.ret none, s) := rfl

/-- Applying an input to the fresh snapshot either faults or returns, and never changes
the state. -/
theorem ApplyTo_fresh (w : World) (i : FilePermsInput) (s : St) :
    ApplyTo w i (FilePerms.val ⟨0, none, none⟩) s = (Res.fault, s) ∨
      ∃ err, ApplyTo w i (FilePerms.val ⟨0, none, none⟩) s = (Res.ret err, s) := by
  unfold ApplyTo
  by_cases hu : i.User = ""
  · by_cases hg : i.Group = ""
    · by_cases hm : i.Mode = 0
      · right; exact ⟨none, by simp [hu, hg, hm, run_bind, run_pure]⟩
      · right; exact ⟨none, by simp [hu, hg, hm, run_bind, run_pure, SetPermissionBits_val]⟩
    · cases hl : lookupGroup w i.Group with
      | error e => right; exact ⟨some e, by simp [hu, hg, hl, run_bind, run_pure]⟩
      | ok g =>
        rcases parseUint32_nil g.Gid s with h | ⟨e, h⟩
        · left
          simp [hu, hg, hl, run_bind, run_pure, FilePerms.SetGroup, FilePerms.call,
            PosixFilePerms.SetGroup, h]
        · right
          exact ⟨some e, by simp [hu, hg, hl, run_bind, run_pure, FilePerms.SetGroup,
            FilePerms.call, PosixFilePerms.SetGroup, h]⟩
  · cases hl : lookupUser w i.User with
    | error e => right; exact ⟨some e, by simp [hu, hl, run_bind, run_pure]⟩
    | ok u =>
      rcases parseUint32_nil u.Uid s with h | ⟨e, h⟩
      · left
        simp [hu, hl, run_bind, run_pure, FilePerms.SetOwner, FilePerms.call,
          PosixFilePerms.SetOwner, h]
      · right
        exact ⟨some e, by simp [hu, hl, run_bind, run_pure, FilePerms.SetOwner,
          FilePerms.call, PosixFilePerms.SetOwner, h]⟩

/-- Whatever the input, `NewFilePerms` either faults or returns the zero snapshot (mode
0, no owner, no group), and it leaves the state as it was. -/
theorem NewFilePerms_fresh (w : World) (input : Option FilePermsInput) (s : St) :
    NewFilePerms w input s = (Res.fault, s) ∨
      ∃ err, NewFilePerms w input s = (Res.ret (⟨0, none, none⟩, err), s) := by
  unfold NewFilePerms
  cases input with
  | none => right; exact ⟨none, rfl⟩
  | some i =>
    rcases ApplyTo_fresh w i s with h | ⟨err, h⟩
    · left; simp [run_bind, run_pure, h]
    · right; exact ⟨err, by simp [run_bind, run_pure, h]⟩

/-- The state after `NewFilePerms` is the state before it. -/
theorem NewFilePerms_state (w : World) (input : Option FilePermsInput) (s s1 : St)
    (r : Res (PosixFilePerms × Option Error)) (h : NewFilePerms w input s = (r, s1)) :
    s1 = s := by
  rcases NewFilePerms_fresh w input s with hf | ⟨err, hf⟩ <;> rw [hf] at h <;>
    exact (congrArg Prod.snd h).symm

/-- An input with a mode only yields the zero snapshot, without error. -/
theorem NewFilePerms_mode_only (w : World) (m : FileMode) (s : St) :
    NewFilePerms w (some ⟨"", "", m⟩) s = (Res.ret (⟨0, none, none⟩, none), s) := by
  by_cases hm : m = 0
  · simp [NewFilePerms, ApplyTo, run_bind, run_pure, hm]
  · simp [NewFilePerms, ApplyTo, run_bind, run_pure, hm, SetPermissionBits_val]

/-- Applying the zero snapshot issues `chown(path, -1, -1)` and nothing else. -/
theorem Apply_zero (w : World) (path : String) (s : St) :
    (FilePerms.val ⟨0, none, none⟩).Apply w path s =
      (Res.ret (w.chownResult path (-1) (-1)),
        { s with trace := s.trace ++ [Event.chown path (-1) (-1)] }) := by
  simp [FilePerms.Apply, FilePerms.call, PosixFilePerms.Apply, run_bind, run_pure, os_Chown, emit]

/-- The snapshot read from an existing file: its mode, and pointers to two fresh cells
holding its uid and gid. -/
theorem getFilePermissions_ok (w : World) (path : String) (st : Stat_t) (s : St)
    (h : w.unixStat path = Except.ok st) :
    getFilePermissions w path s =
      (Res.ret (some ⟨st.Mode, some s.heap.length, some (s.heap.length + 1)⟩, none),
        { s with heap := s.heap ++ [st.Uid, st.Gid] }) := by
  simp [getFilePermissions, h, run_bind, run_pure, alloc]

/-- Applying a snapshot read from a file: `chmod` with its mode, then `chown` with its
uid and gid. -/
theorem Apply_stat (w : World) (path : String) (mode uid gid : Nat) (heap : List Nat)
    (trace : List Event) (hm : mode ≠ 0) (hc : w.chmodResult path mode = none) :
    PosixFilePerms.Apply w ⟨mode, some heap.length, some (heap.length + 1)⟩ path
        ⟨heap ++ [uid, gid], trace⟩ =
      (Res.ret (w.chownResult path uid gid),
        ⟨heap ++ [uid, gid], trace ++ [Event.chmod path mode, Event.chown path uid gid]⟩) := by
  simp [PosixFilePerms.Apply, run_bind, run_pure, os_Chown, os_Chmod, emit, load_fst, load_snd,
    hm, hc]

/-- The empty override changes nothing. -/
theorem ApplyTo_empty (w : World) (perms : FilePerms) (s : St) :
    ApplyTo w ⟨"", "", 0⟩ perms s = (Res.ret none, s) := by
  simp [ApplyTo, run_bind, run_pure]

/-- An override with a mode only changes nothing in a snapshot read from a file. -/
theorem ApplyTo_mode_only (w : World) (m : FileMode) (p : PosixFilePerms) (s : St) :
    ApplyTo w ⟨"", "", m⟩ (FilePerms.ptr (some p)) s = (Res.ret none, s) := by
  by_cases hm : m = 0
  · simp [ApplyTo, run_bind, run_pure, hm]
  · simp [ApplyTo, run_bind, run_pure, hm, FilePerms.SetPermissionBits, FilePerms.call,
      PosixFilePerms.SetPermissionBits]

/-- An unresolved override stops `ApplyTo` with the lookup error before any method of
the snapshot is called. -/
theorem ApplyTo_unresolved (w : World) (o : FilePermsInput) (perms : FilePerms) (s : St)
    (h : Unresolved w o) : ∃ e, ApplyTo w o perms s = (Res.ret (some e), s) := by
  rcases h with ⟨hu, e, he⟩ | ⟨hu, hg, e, he⟩
  · exact ⟨e, by simp [ApplyTo, hu, he, run_bind, run_pure]⟩
  · exact ⟨e, by simp [ApplyTo, hu, hg, he, run_bind, run_pure]⟩

/-- The three ways `Chown` ends, by how the construction of the snapshot ends. -/
theorem Chown_cases (w : World) (name user group : String) (s : St) :
    Chown w name user group s =
      match NewFilePerms w (some ⟨user, group, 0⟩) s with
      | (Res.fault, s1) => (Res.fault, s1)
      | (Res.ret (_, some _), s1) => (Res.ret none, s1)
      | (Res.ret (p, none), s1) => PosixFilePerms.Apply w p name s1 := by
  unfold Chown
  rw [run_bind]
  rcases hn : NewFilePerms w (some ⟨user, group, 0⟩) s with ⟨r, s1⟩
  cases r with
  | fault => rfl
  | ret a =>
    obtain ⟨p, err⟩ := a
    cases err with
    | none => simp [run_bind, run_pure, FilePerms.Apply, FilePerms.call]
    | some e => simp [run_bind, run_pure]

/-- The three ways `Chmod` ends, by how the construction of the snapshot ends. -/
theorem Chmod_cases (w : World) (name : String) (mode : FileMode) (s : St) :
    Chmod w name mode s =
      match NewFilePerms w (some ⟨"", "", mode⟩) s with
      | (Res.fault, s1) => (Res.fault, s1)
      | (Res.ret (_, some _), s1) => (Res.ret none, s1)
      | (Res.ret (p, none), s1) => PosixFilePerms.Apply w p name s1 := by
  unfold Chmod
  rw [run_bind]
  rcases hn : NewFilePerms w (some ⟨"", "", mode⟩) s with ⟨r, s1⟩
  cases r with
  | fault => rfl
  | ret a =>
    obtain ⟨p, err⟩ := a
    cases err with
    | none => simp [run_bind, run_pure, FilePerms.Apply, FilePerms.call]
    | some e => simp [run_bind, run_pure]

/-! ## POSIX backend: `Chmod` and `Chown` -/

/-- For every machine, path and mode, `Chmod` issues `chown(path, -1, -1)` and nothing
else, and returns what that `chown` answers: the mode never reaches the snapshot. -/
theorem Chmod_only_chowns (w : World) (name : String) (mode : FileMode) (s : St) :
    Chmod w name mode s =
      (Res.ret (w.chownResult name (-1) (-1)),
        { s with trace := s.trace ++ [Event.chown name (-1) (-1)] }) := by
  rw [Chmod_cases, NewFilePerms_mode_only]
  exact Apply_zero w name s

/-- C1, at an input where the code departs from it: `Chmod("/tmp/out", 0600)` returns no
error, and the only call it issues is `chown("/tmp/out", -1, -1)`; no `chmod` of the path
is issued, with mode `0600` or any other (the defect: `SetPermissionBits` has a value
receiver, so the snapshot `NewFilePerms` returns keeps mode 0). -/
theorem Chmod_issues_no_chmod :
    (Chmod exampleWorld "/tmp/out" 0o600).result = Res.ret none ∧
      (Chmod exampleWorld "/tmp/out" 0o600).effects = [Event.chown "/tmp/out" (-1) (-1)] ∧
      Event.chmod "/tmp/out" 0o600 ∉ (Chmod exampleWorld "/tmp/out" 0o600).effects := by
  decide

/-- The three ways `Chown` can end, for every input: a run-time fault with nothing
issued, nil with nothing issued (the construction of the snapshot returned an error),
or the end of `Apply` on the zero snapshot, which issues `chown(name, -1, -1)` and
returns what that call answers. -/
theorem Chown_outcomes (w : World) (name user group : String) (s : St) :
    Chown w name user group s = (Res.fault, s) ∨
      Chown w name user group s = (Res.ret none, s) ∨
      Chown w name user group s =
        (Res.ret (w.chownResult name (-1) (-1)),
          { s with trace := s.trace ++ [Event.chown name (-1) (-1)] }) := by
  rw [Chown_cases]
  rcases NewFilePerms_fresh w (some ⟨user, group, 0⟩) s with h | ⟨err, h⟩
  · left; rw [h]
  · cases err with
    | some e => right; left; rw [h]
    | none => right; right; rw [h]; exact Apply_zero w name s

/-- C7, at an input where the code departs from it: for `Chown("/tmp/out", "root", "")`
the construction of the snapshot neither returns an error nor a snapshot, it ends in a
run-time fault (the nil dereference in `parseUint32`), and so does `Chown`: it does not
return nil, and it does not return what `Apply` returns on the path for the fresh
snapshot (which is nil, after `chown("/tmp/out", -1, -1)`); `Apply` is never called. -/
theorem Chown_neither_nil_nor_apply_result :
    (NewFilePerms exampleWorld (some ⟨"root", "", 0⟩)).result = Res.fault ∧
      (Chown exampleWorld "/tmp/out" "root" "").result = Res.fault ∧
      (Chown exampleWorld "/tmp/out" "root" "").result ≠ Res.ret none ∧
      (PosixFilePerms.Apply exampleWorld ⟨0, none, none⟩ "/tmp/out").result = Res.ret none ∧
      (Chown exampleWorld "/tmp/out" "root" "").result ≠
        (PosixFilePerms.Apply exampleWorld ⟨0, none, none⟩ "/tmp/out").result ∧
      (Chown exampleWorld "/tmp/out" "root" "").effects = [] := by
  decide

/-- Whenever the user of `Chown` is set and resolves to a user whose uid is a decimal
32-bit number, `Chown` faults and issues nothing: the parsed uid is stored through the
nil `Uid` pointer of the fresh snapshot. -/
theorem Chown_faults_on_known_user (w : World) (name user : String) (u : User) (uid : Nat)
    (s : St) (hne : user ≠ "") (hl : lookupUser w user = Except.ok u)
    (hp : strconv_ParseUint u.Uid 10 32 = Except.ok uid) :
    Chown w name user "" s = (Res.fault, s) := by
  have hApply : ApplyTo w ⟨user, "", 0⟩ (FilePerms.val ⟨0, none, none⟩) s = (Res.fault, s) := by
    simp [ApplyTo, hne, hl, run_bind, run_pure, FilePerms.SetOwner, FilePerms.call,
      PosixFilePerms.SetOwner, parseUint32, hp, store]
  have hNew : NewFilePerms w (some ⟨user, "", 0⟩) s = (Res.fault, s) := by
    simp [NewFilePerms, run_bind, run_pure, hApply]
  rw [Chown_cases, hNew]

/-- C8, at an input where the code departs from it: the user `root` resolves to uid `0`,
a decimal 32-bit number, and `Chown("/tmp/out", "root", "")` ends in a run-time fault
(the nil dereference in `parseUint32`) without issuing `chown("/tmp/out", 0, -1)` or any
other call. -/
theorem Chown_known_user_faults :
    lookupUser exampleWorld "root" = Except.ok ⟨"0", "0", "root"⟩ ∧
      strconv_ParseUint "0" 10 32 = Except.ok 0 ∧
      (Chown exampleWorld "/tmp/out" "root" "").result = Res.fault ∧
      (Chown exampleWorld "/tmp/out" "root" "").effects = [] :=
  ⟨rfl, rfl, by decide, by decide⟩

/-! ## POSIX backend: `preserveFilePermissions` -/

/-- C5: when the source exists (`os.Stat` and `unix.Stat` succeed; the mode that `stat`
reports for an existing file is non-zero, as it carries the file type), the override is
empty and the `chmod` and `chown` of the destination succeed, `preserveFilePermissions`
returns no error and issues exactly `chmod(dest, mode)` and then `chown(dest, uid, gid)`
with the mode, uid and gid read from the source, whatever the fallback is. -/
theorem preserveFilePermissions_copies_source (w : World) (destPath srcPath : String)
    (fallback : FilePermsInput) (stat : Stat_t) (s : St)
    (hstat : w.osStat srcPath = none) (hunix : w.unixStat srcPath = Except.ok stat)
    (hmode : stat.Mode ≠ 0)
    (hchmod : w.chmodResult destPath stat.Mode = none)
    (hchown : w.chownResult destPath stat.Uid stat.Gid = none) :
    preserveFilePermissions w destPath srcPath ⟨"", "", 0⟩ fallback s =
      (Res.ret none,
        ⟨s.heap ++ [stat.Uid, stat.Gid],
          s.trace ++ [Event.chmod destPath stat.Mode,
            Event.chown destPath stat.Uid stat.Gid]⟩) := by
  unfold preserveFilePermissions
  simp [hstat, run_bind, run_pure, getFilePermissions_ok w srcPath stat _ hunix, ApplyTo_empty,
    FilePerms.Apply, FilePerms.call, Apply_stat w destPath stat.Mode stat.Uid stat.Gid
      s.heap s.trace hmode hchmod, hchown]

/-- C5 at a concrete input: the destination receives mode `0644` (with the file type
bits of `stat`), uid 1000 and gid 100 of `/etc/app.conf`, not the fallback's `0600`. -/
theorem preserveFilePermissions_copies_source_witness :
    exampleWorld.osStat "/etc/app.conf" = none ∧
      exampleWorld.unixStat "/etc/app.conf" = Except.ok ⟨0o100644, 1000, 100⟩ ∧
      preserveFilePermissions exampleWorld "/tmp/out" "/etc/app.conf" ⟨"", "", 0⟩
          ⟨"", "", 0o600⟩ St.init =
        (Res.ret none,
          ⟨[1000, 100], [Event.chmod "/tmp/out" 0o100644, Event.chown "/tmp/out" 1000 100]⟩) :=
  ⟨by decide, rfl,
    preserveFilePermissions_copies_source exampleWorld "/tmp/out" "/etc/app.conf"
      ⟨"", "", 0o600⟩ ⟨0o100644, 1000, 100⟩ St.init (by decide) rfl (by decide)
      (by decide) (by decide)⟩

/-- For an existing source, an override that sets only a mode has no effect at all:
the call ends as it does with the empty override. -/
theorem override_mode_ignored (w : World) (destPath srcPath : String)
    (fallback : FilePermsInput) (stat : Stat_t) (m : FileMode) (s : St)
    (hstat : w.osStat srcPath = none) (hunix : w.unixStat srcPath = Except.ok stat) :
    preserveFilePermissions w destPath srcPath ⟨"", "", m⟩ fallback s =
      preserveFilePermissions w destPath srcPath ⟨"", "", 0⟩ fallback s := by
  unfold preserveFilePermissions
  simp [hstat, run_bind, run_pure, getFilePermissions_ok w srcPath stat _ hunix, ApplyTo_empty,
    ApplyTo_mode_only]

/-- C2, at an input where the code departs from it: the source `/etc/app.conf` exists
with mode `0644` and the override asks for mode `0600` (no user, no group), yet the only
`chmod` issued on the destination carries the source's mode, whose permission bits are
`0644`; no `chmod` with the override's `0600` is issued. -/
theorem preserveFilePermissions_override_mode_lost :
    (preserveFilePermissions exampleWorld "/tmp/out" "/etc/app.conf" ⟨"", "", 0o600⟩
        ⟨"", "", 0⟩).effects =
      [Event.chmod "/tmp/out" 0o100644, Event.chown "/tmp/out" 1000 100] ∧
    FileMode.Perm 0o100644 = 0o644 ∧
    Event.chmod "/tmp/out" 0o600 ∉
      (preserveFilePermissions exampleWorld "/tmp/out" "/etc/app.conf" ⟨"", "", 0o600⟩
        ⟨"", "", 0⟩).effects := by
  decide

/-- For a source that does not exist, the empty override and a fallback that sets only
a mode, the call issues `chown(dest, -1, -1)` and nothing else, whatever the mode. -/
theorem fallback_mode_ignored (w : World) (destPath srcPath : String) (m : FileMode)
    (e : Error) (s : St) (hstat : w.osStat srcPath = some e)
    (hne : os_IsNotExist (some e) = true)
    (hchown : w.chownResult destPath (-1) (-1) = none) :
    preserveFilePermissions w destPath srcPath ⟨"", "", 0⟩ ⟨"", "", m⟩ s =
      (Res.ret none, { s with trace := s.trace ++ [Event.chown destPath (-1) (-1)] }) := by
  unfold preserveFilePermissions
  simp [hstat, hne, run_bind, run_pure, NewFilePerms_mode_only, ApplyTo_empty, Apply_zero,
    hchown]

/-- C3, at an input where the code departs from it: the source `/missing` does not
exist, the override is empty and the fallback asks for mode `0644`; the call returns no
error, but the only call issued on the destination is `chown("/tmp/out", -1, -1)`: no
`chmod` with the fallback's mode is issued. -/
theorem preserveFilePermissions_fallback_mode_lost :
    os_IsNotExist (exampleWorld.osStat "/missing") = true ∧
    (preserveFilePermissions exampleWorld "/tmp/out" "/missing" ⟨"", "", 0⟩
        ⟨"", "", 0o644⟩).result = Res.ret none ∧
    (preserveFilePermissions exampleWorld "/tmp/out" "/missing" ⟨"", "", 0⟩
        ⟨"", "", 0o644⟩).effects = [Event.chown "/tmp/out" (-1) (-1)] ∧
    Event.chmod "/tmp/out" 0o644 ∉
      (preserveFilePermissions exampleWorld "/tmp/out" "/missing" ⟨"", "", 0⟩
        ⟨"", "", 0o644⟩).effects := by
  decide

/-- Whatever the source and the fallback, an unresolved override never leads to a
`chmod` or `chown`: the call ends in an error or in a run-time fault, and all it may
have issued is the warning about the source. -/
theorem unresolved_override_issues_nothing (w : World) (destPath srcPath : String)
    (override fallback : FilePermsInput) (s : St) (h : Unresolved w override) :
    ((preserveFilePermissions w destPath srcPath override fallback s).1 = Res.fault ∨
      ∃ e, (preserveFilePermissions w destPath srcPath override fallback s).1 =
        Res.ret (some e)) ∧
    ((preserveFilePermissions w destPath srcPath override fallback s).2.trace = s.trace ∨
      (preserveFilePermissions w destPath srcPath override fallback s).2.trace =
        s.trace ++ [Event.warnPreserve srcPath (w.osStat srcPath)]) := by
  unfold preserveFilePermissions
  cases hstat : w.osStat srcPath with
  | none =>
    cases hunix : w.unixStat srcPath with
    | error e0 =>
      obtain ⟨e, he⟩ := ApplyTo_unresolved w override (FilePerms.ptr none) s h
      simp [run_bind, run_pure, getFilePermissions, hunix, he, errors_Wrap]
    | ok st =>
      obtain ⟨e, he⟩ := ApplyTo_unresolved w override
        (FilePerms.ptr (some ⟨st.Mode, some s.heap.length, some (s.heap.length + 1)⟩))
        { s with heap := s.heap ++ [st.Uid, st.Gid] } h
      simp [run_bind, run_pure, getFilePermissions_ok w srcPath st _ hunix, he, errors_Wrap]
  | some e0 =>
    by_cases hne : os_IsNotExist (some e0) = true
    · rcases NewFilePerms_fresh w (some fallback) s with hf | ⟨err, hf⟩
      · simp [run_bind, run_pure, hne, hf]
      · cases err with
        | some e1 => simp [run_bind, run_pure, hne, hf, errors_Wrap]
        | none =>
          obtain ⟨e, he⟩ := ApplyTo_unresolved w override (FilePerms.val ⟨0, none, none⟩) s h
          simp [run_bind, run_pure, hne, hf, he, errors_Wrap]
    · rcases NewFilePerms_fresh w (some fallback)
        { s with trace := s.trace ++ [Event.warnPreserve srcPath (some e0)] } with hf | ⟨err, hf⟩
      · simp [run_bind, run_pure, hne, hf, emit]
      · cases err with
        | some e1 => simp [run_bind, run_pure, hne, hf, errors_Wrap, emit]
        | none =>
          obtain ⟨e, he⟩ := ApplyTo_unresolved w override (FilePerms.val ⟨0, none, none⟩)
            { s with trace := s.trace ++ [Event.warnPreserve srcPath (some e0)] } h
          simp [run_bind, run_pure, hne, hf, he, errors_Wrap, emit]

/-- When the source can be read by `os.Stat`, or the fallback names neither user nor
group, an unresolved override makes `preserveFilePermissions` return a non-nil error. -/
theorem unresolved_override_returns_error (w : World) (destPath srcPath : String)
    (override fallback : FilePermsInput) (s : St) (h : Unresolved w override)
    (hsafe : w.osStat srcPath = none ∨ (fallback.User = "" ∧ fallback.Group = "")) :
    ∃ e, (preserveFilePermissions w destPath srcPath override fallback s).1 =
      Res.ret (some e) := by
  cases hstat : w.osStat srcPath with
  | none =>
    unfold preserveFilePermissions
    cases hunix : w.unixStat srcPath with
    | error e0 =>
      obtain ⟨e, he⟩ := ApplyTo_unresolved w override (FilePerms.ptr none) s h
      simp [hstat, run_bind, run_pure, getFilePermissions, hunix, he, errors_Wrap]
    | ok st =>
      obtain ⟨e, he⟩ := ApplyTo_unresolved w override
        (FilePerms.ptr (some ⟨st.Mode, some s.heap.length, some (s.heap.length + 1)⟩))
        { s with heap := s.heap ++ [st.Uid, st.Gid] } h
      simp [hstat, run_bind, run_pure, getFilePermissions_ok w srcPath st _ hunix, he,
        errors_Wrap]
  | some e0 =>
    rcases hsafe with hnone | ⟨hu, hg⟩
    · rw [hstat] at hnone
      cases hnone
    · obtain ⟨fu, fg, fm⟩ := fallback
      simp only at hu hg
      subst hu hg
      unfold preserveFilePermissions
      by_cases hne : os_IsNotExist (some e0) = true
      · obtain ⟨e, he⟩ := ApplyTo_unresolved w override (FilePerms.val ⟨0, none, none⟩) s h
        simp [hstat, run_bind, run_pure, hne, NewFilePerms_mode_only, he, errors_Wrap]
      · obtain ⟨e, he⟩ := ApplyTo_unresolved w override (FilePerms.val ⟨0, none, none⟩)
          { s with trace := s.trace ++ [Event.warnPreserve srcPath (some e0)] } h
        simp [hstat, run_bind, run_pure, hne, NewFilePerms_mode_only, he, errors_Wrap, emit]

/-- C6, at an input where the code departs from it: the override's user `nobody` cannot
be resolved, the source `/missing` does not exist and the fallback names the user
`root`; `preserveFilePermissions` does not return an error, it ends in a run-time fault
while building the fallback snapshot (the nil dereference in `parseUint32`), before the
override is looked at. It issues no `chmod` and no `chown`. -/
theorem preserveFilePermissions_fallback_owner_faults :
    Unresolved exampleWorld ⟨"nobody", "", 0⟩ ∧
      (preserveFilePermissions exampleWorld "/tmp/out" "/missing" ⟨"nobody", "", 0⟩
        ⟨"root", "", 0o644⟩).result = Res.fault ∧
      (preserveFilePermissions exampleWorld "/tmp/out" "/missing" ⟨"nobody", "", 0⟩
        ⟨"root", "", 0o644⟩).effects = [] :=
  ⟨Or.inl ⟨by decide, Error.unknownIdentity "nobody", rfl⟩, by decide, by decide⟩

end Posix

/-! ## Windows backend -/

namespace Windows

/-- The mask written for a triplet with the write bit alone is read back as read and
write: `FILE_GENERIC_WRITE` shares `READ_CONTROL` and `SYNCHRONIZE` with
`FILE_GENERIC_READ`, against which the read bit is tested. -/
theorem write_mask_reads_as_read_write :
    accessMaskToFileMode (fileModeToAccessMask 0b010 0) 0 = 0b110 ∧
      FILE_GENERIC_WRITE &&& FILE_GENERIC_READ = READ_CONTROL ||| SYNCHRONIZE := by
  decide

set_option maxRecDepth 200000 in
/-- On the modes below `0o1000` the round trip returns the mode with the read bit added
in every triplet that has the write or the execute bit; it returns the mode itself
exactly when every triplet with a write or execute bit also has the read bit. -/
theorem modeRoundTrip_below_512 :
    ∀ m, m < 512 →
      modeRoundTrip m =
        (m ||| (if m &&& 0o300 ≠ 0 then 0o400 else 0) ||| (if m &&& 0o030 ≠ 0 then 0o040 else 0)
          ||| (if m &&& 0o003 ≠ 0 then 0o004 else 0)) := by
  decide

/-- A number meets the single bit `2^k` exactly when its bit `k` is set. -/
theorem and_two_pow_ne_zero (x k : Nat) : (x &&& 2 ^ k ≠ 0) ↔ x.testBit k = true := by
  constructor
  · intro h
    by_contra hb
    apply h
    apply Nat.eq_of_testBit_eq
    intro i
    simp only [Nat.testBit_and, Nat.testBit_two_pow, Nat.zero_testBit]
    by_cases hki : k = i
    · subst hki; simp [hb]
    · simp [hki]
  · intro hb h
    have := congrArg (fun y => y.testBit k) h
    simp [Nat.testBit_two_pow, hb] at this

/-- Bit `k` of `m >>> s` is bit `s + k` of `m`. -/
theorem shift_and_ne_zero (m s k : Nat) :
    ((m >>> s) &&& 2 ^ k ≠ 0) ↔ m.testBit (s + k) = true := by
  rw [and_two_pow_ne_zero, Nat.testBit_shiftRight]

/-- The bits below 9 of `m % 512` are those of `m`. -/
theorem shift_and_mod_ne_zero (m s k : Nat) (h : s + k < 9) :
    (((m % 512) >>> s) &&& 2 ^ k ≠ 0) ↔ m.testBit (s + k) = true := by
  have e : (512 : Nat) = 2 ^ 9 := by norm_num
  rw [shift_and_ne_zero, e, Nat.testBit_mod_two_pow]
  simp [h]

/-- The access mask of a subject depends on the nine permission bits only. -/
theorem fileModeToAccessMask_mod (m s : Nat) (hs : s + 2 < 9) :
    fileModeToAccessMask m s = fileModeToAccessMask (m % 512) s := by
  have h4 : (m >>> s &&& 4 ≠ 0) ↔ m.testBit (s + 2) = true := shift_and_ne_zero m s 2
  have h2 : (m >>> s &&& 2 ≠ 0) ↔ m.testBit (s + 1) = true := shift_and_ne_zero m s 1
  have h1 : (m >>> s &&& 1 ≠ 0) ↔ m.testBit (s + 0) = true := shift_and_ne_zero m s 0
  have h4' : ((m % 512) >>> s &&& 4 ≠ 0) ↔ m.testBit (s + 2) = true :=
    shift_and_mod_ne_zero m s 2 hs
  have h2' : ((m % 512) >>> s &&& 2 ≠ 0) ↔ m.testBit (s + 1) = true :=
    shift_and_mod_ne_zero m s 1 (by omega)
  have h1' : ((m % 512) >>> s &&& 1 ≠ 0) ↔ m.testBit (s + 0) = true :=
    shift_and_mod_ne_zero m s 0 (by omega)
  unfold fileModeToAccessMask
  simp only [Id.run, Id.pure_eq, Id.bind_eq]
  simp only [h1, h1', h2, h2', h4, h4']

/-- The round trip depends on the nine permission bits only. -/
theorem modeRoundTrip_mod (m : Nat) : modeRoundTrip m = modeRoundTrip (m % 512) := by
  unfold modeRoundTrip fileModeToAccessMasks
  simp only [PermbitsOwner, PermbitsGroup, PermbitsWorld]
  rw [fileModeToAccessMask_mod m 6 (by decide), fileModeToAccessMask_mod m 3 (by decide),
    fileModeToAccessMask_mod m 0 (by decide)]

/-- The nine permission bits of `m`, as a remainder. -/
theorem perm_eq_mod (m : Nat) : m &&& 0o777 = m % 512 :=
  Nat.and_pow_two_sub_one_eq_mod m 9

/-- Masking with a constant below `0o1000` sees the nine permission bits only. -/
theorem and_low_mod (m k : Nat) (hk : k < 512) : m &&& k = (m % 512) &&& k := by
  apply Nat.eq_of_testBit_eq
  intro i
  have e : (512 : Nat) = 2 ^ 9 := by norm_num
  rw [Nat.testBit_and, Nat.testBit_and, e, Nat.testBit_mod_two_pow]
  by_cases hi : i < 9
  · simp [hi]
  · have : k.testBit i = false := by
      apply Nat.testBit_lt_two_pow
      calc k < 512 := hk
        _ = 2 ^ 9 := e
        _ ≤ 2 ^ i := Nat.pow_le_pow_right (by norm_num) (by omega)
    simp [this]

/-- For every mode the round trip returns the nine permission bits with the read bit
added in every triplet that has the write or the execute bit. -/
theorem modeRoundTrip_eq (m : Nat) :
    modeRoundTrip m =
      ((m &&& 0o777) ||| (if m &&& 0o300 ≠ 0 then 0o400 else 0)
        ||| (if m &&& 0o030 ≠ 0 then 0o040 else 0)
        ||| (if m &&& 0o003 ≠ 0 then 0o004 else 0)) := by
  have hlt : m % 512 < 512 := Nat.mod_lt _ (by norm_num)
  rw [modeRoundTrip_mod, modeRoundTrip_below_512 _ hlt, perm_eq_mod,
    and_low_mod m 0o300 (by norm_num), and_low_mod m 0o030 (by norm_num),
    and_low_mod m 0o003 (by norm_num)]

/-- C4, at an input where the code departs from it: for the mode `0200` (owner may
write, nothing else) the three masks are `FILE_GENERIC_WRITE`, 0 and 0, and reading them
back yields `0600`, not `0200 & 0777 = 0200`. -/
theorem modeRoundTrip_write_only :
    fileModeToAccessMasks 0o200 = (0x120116, 0, 0) ∧
      accessMasksToFileMode 0x120116 0 0 = 0o600 ∧
      modeRoundTrip 0o200 = 0o600 ∧ modeRoundTrip 0o200 ≠ 0o200 &&& 0o777 := by
  decide

/-- For every descriptor whose accessors succeed, `Apply` makes one call of
`SetNamedSecurityInfo`, and in it the group is written (flag set, SID passed) exactly
when the group is not defaulted and the owner is present and not defaulted; otherwise
the flag is clear and the group SID is nil. Whether the group itself is present plays
no role. -/
theorem Apply_group_written_iff
    (setResult : String → Nat → Option String → Option String → Option Nat → Option Error)
    (owner group : Option String) (dacl : Option Nat) (od gd dd : Bool) (path : String) :
    ∃ info o d,
      (WindowsFilePerms.Apply setResult
          ⟨⟨Except.ok (owner, od), Except.ok (group, gd), Except.ok (dacl, dd)⟩⟩ path).effects =
        [Event.setNamedSecurityInfo path SE_FILE_OBJECT info o
          (if gd = false ∧ od = false ∧ owner ≠ none then group else none) d] ∧
      (info &&& GROUP_SECURITY_INFORMATION ≠ 0 ↔ (gd = false ∧ od = false ∧ owner ≠ none)) := by
  cases od <;> cases gd <;> cases dd <;> cases owner <;> cases dacl <;>
    exact ⟨_, _, _, rfl, by
      simp [OWNER_SECURITY_INFORMATION, GROUP_SECURITY_INFORMATION,
        DACL_SECURITY_INFORMATION, PROTECTED_DACL_SECURITY_INFORMATION] <;> decide⟩

/-- C10, at inputs where the code departs from it. A descriptor that holds a group
(present, not defaulted) and no owner: `Apply` passes no group SID and does not set
`GROUP_SECURITY_INFORMATION` (`info` is `DACL | PROTECTED_DACL`), so the group is
dropped. A descriptor that holds an owner and no group: `Apply` sets
`GROUP_SECURITY_INFORMATION` (`info` is `OWNER | GROUP | DACL | PROTECTED_DACL`) with
a nil group SID, so an absent group is written. -/
theorem Apply_group_follows_owner :
    (WindowsFilePerms.Apply (fun _ _ _ _ _ => none) ⟨groupOnlyDescriptor⟩
        "out.txt").effects =
      [Event.setNamedSecurityInfo "out.txt" SE_FILE_OBJECT 0x80000004 none none (some 1)] ∧
    0x80000004 &&& GROUP_SECURITY_INFORMATION = 0 ∧
    (WindowsFilePerms.Apply (fun _ _ _ _ _ => none) ⟨ownerOnlyDescriptor⟩
        "out.txt").effects =
      [Event.setNamedSecurityInfo "out.txt" SE_FILE_OBJECT 0x80000007 (some "S-1-5-18") none
        (some 1)] ∧
    0x80000007 &&& GROUP_SECURITY_INFORMATION ≠ 0 := by
  decide

end Windows

/-! ## Child process controller -/

namespace Child

/-- C9: on a controller that tracks no process, `Signal(sig)` and `Reload()` return no
error, `Kill()` returns, none of them has an effect on the outside, and the controller
is unchanged afterwards, so it still tracks no process. -/
theorem no_process_operations_are_noops (os : SignalOS) (c : Controller) (sig : Signal)
    (draw : Nat) (h : c.processHandle = none) :
    c.Signal os sig = (none, c, []) ∧ c.Reload os = (none, c, []) ∧
      c.Kill os draw = (c, []) ∧
      (c.Signal os sig).2.1.processHandle = none ∧
      (c.Reload os).2.1.processHandle = none ∧
      (c.Kill os draw).1.processHandle = none := by
  have hs : c.Signal os sig = (none, c, []) := by simp [Controller.Signal, h]
  have hr : c.Reload os = (none, c, []) := by
    cases hrs : c.reloadSignal with
    | none => simp [Controller.Reload, hrs]
    | some r => simp [Controller.Reload, hrs, Controller.Signal, h]
  have hk : c.Kill os draw = (c, []) := by simp [Controller.Kill, h]
  refine ⟨hs, hr, hk, ?_, ?_, ?_⟩
  · rw [hs]; exact h
  · rw [hr]; exact h
  · rw [hk]; exact h

/-- C9 at a concrete input: the controller that was never started, signal 10. -/
theorem no_process_operations_are_noops_witness :
    idleController.processHandle = none ∧
      idleController.Signal exampleSignalOS 10 = (none, idleController, []) ∧
      idleController.Reload exampleSignalOS = (none, idleController, []) ∧
      idleController.Kill exampleSignalOS 3 = (idleController, []) :=
  ⟨rfl,
    (no_process_operations_are_noops exampleSignalOS idleController 10 3 rfl).1,
    (no_process_operations_are_noops exampleSignalOS idleController 10 3 rfl).2.1,
    (no_process_operations_are_noops exampleSignalOS idleController 10 3 rfl).2.2.1⟩

end Child

end ConsulTemplate
